import Mathlib

/-!
Verification of the drone control subsystem (shared-state actors).

Shallow embedding of the C sources:
- `proj_types.h` / `flight_ctrl.c`: `current_action_t` tag values, motor vector,
  one iteration of `flight_loop` (state machine, motor updates, UDP command decode);
- `battery.c`: one iteration of `battery_loop` and iterated ticks;
- `telemetry.c`: the `SampleGPS` ring-drain loop of `telemetry_loop`;
- `gps_ctrl.c`: one iteration of `gps_loop` (ring producer);
- `drone_sys.c`: `rwlock_init`, `init_locks_shm`, shared-region frame of the
  SIGUSR1 recovery path.

Machine floats are modelled as exact rationals; the clamp structure of the code
is preserved literally.  Semaphore waits are modelled by explicit event oracles
(one event per wait outcome), since real-time blocking has no shallow embedding.
-/

namespace Drone

/-! ### current_action_t tag values (proj_types.h) -/

def Reserved : Nat := 1
def SampleGPS : Nat := 2
def Fly : Nat := 4
def Land : Nat := 8
def Idle : Nat := 16
def Charge : Nat := 32
def Abort : Nat := 64

/-! ### Constants from flight_ctrl.c, battery.c, telemetry.c, proj_types.h -/

def DELTA_DECREASE : ℚ := 1/100
def DELTA_INCREASE : ℚ := 5/1000
def FLY_THRESH : ℚ := 7/10
def ACCEL_STABILIZATION_THRESHOLD : ℚ := 1/2
def MAX_FLY_TIMEOUT : Nat := 10
def GPS_BUFFER_SIZE : Nat := 128 * 10
def DISCHARGE_INTERVAL_MS : Nat := 2000
def CHARGE_INTERVAL_MS : Nat := 500
def GPS_WAIT_TIMEOUT_S : Nat := 5
def MSG_SIZE : Nat := 256

/-! ### Data model (proj_types.h) -/

/-- `acceleration_t`: acceleration on all axes (floats modelled as ℚ). -/
structure acceleration_t where
  x : ℚ
  y : ℚ
  z : ℚ
deriving DecidableEq

/-- `motors_t`: the four motor PWM ratios (`float motors[4]`). -/
structure motors_t where
  m0 : ℚ
  m1 : ℚ
  m2 : ℚ
  m3 : ℚ
deriving DecidableEq

def motors_t.map (f : ℚ → ℚ) (m : motors_t) : motors_t :=
  ⟨f m.m0, f m.m1, f m.m2, f m.m3⟩

def motors_t.sum (m : motors_t) : ℚ :=
  m.m0 + m.m1 + m.m2 + m.m3

/-- Componentwise membership of the motor vector in [0, 1]. -/
def InRange01 (m : motors_t) : Prop :=
  (0 ≤ m.m0 ∧ m.m0 ≤ 1) ∧ (0 ≤ m.m1 ∧ m.m1 ≤ 1) ∧
  (0 ≤ m.m2 ∧ m.m2 ≤ 1) ∧ (0 ≤ m.m3 ∧ m.m3 ≤ 1)

/-- `if (x > 1.0f) x = 1.0f;` -/
def clampUp (x : ℚ) : ℚ := if 1 < x then 1 else x

/-- `if (x < 0.) x = 0.;` -/
def clampLo (x : ℚ) : ℚ := if x < 0 then 0 else x

/-! ### Flight controller (flight_ctrl.c) -/

/--
Per-iteration state of `flight_loop`: the shared fields it reads and writes
(action under the RW lock, motors under the PWM mutex, the atomic battery,
the acceleration snapshot) together with the controller statics
`last_action`, `last_accel`, `fly_timeout`.
-/
structure FlightState where
  action : Nat
  last_action : Nat
  motors : motors_t
  accel : acceleration_t
  last_accel : acceleration_t
  battery : Nat
  fly_timeout : Nat
deriving DecidableEq

/--
The motor update of the `Fly` branch: average of the old motors; below
`FLY_THRESH` every motor gains `DELTA_INCREASE` saturated at 1.0; at or above
`ACCEL_STABILIZATION_THRESHOLD` every motor loses `d = accel.x + accel.y`,
clamped first above then below.
-/
def flyMotors (m : motors_t) (d : ℚ) : motors_t :=
  let avg := m.sum / 4
  let t := if avg < FLY_THRESH
           then m.map (fun x => clampUp (x + DELTA_INCREASE))
           else m
  if ACCEL_STABILIZATION_THRESHOLD ≤ avg
  then t.map (fun x => clampLo (clampUp (x - d)))
  else t

/-- The motor update of the `Land` branch: each motor loses `DELTA_DECREASE`, clamped at 0. -/
def landMotors (m : motors_t) : motors_t :=
  m.map (fun x => clampLo (x - DELTA_DECREASE))

/--
The `Land` case body of `flight_loop`'s switch, also reached by fall-through
from `Abort`.  `current_action` is the local variable of the C code (it keeps
the value read at the top of the tick, even after `action.type` was rewritten
by the `Abort` branch).  An operator command in `{Fly, Abort}` is applied and
ends the case; otherwise motors decrease and, at rest (average exactly 0),
the action becomes `Charge` when the tick entered through `Abort`, else `Idle`.
-/
def landLogic (current_action : Nat) (s : FlightState) (cmd : Nat) : FlightState :=
  if cmd &&& (Fly ||| Abort) ≠ 0 then
    { s with action := cmd }
  else
    let m := landMotors s.motors
    { s with
      motors := m,
      action := if m.sum / 4 = 0
                then (if current_action = Abort then Charge else Idle)
                else s.action }

/--
The `Fly` case body of `flight_loop`'s switch: motor update, stall detection
(`fly_timeout` reaching `MAX_FLY_TIMEOUT` forces `Abort`, then reset), then
operator commands from `{SampleGPS, Land, Abort}` applied last.
-/
def fly_case (s : FlightState) (cmd : Nat) : FlightState :=
  { s with
    motors := flyMotors s.motors (s.accel.x + s.accel.y),
    fly_timeout := if s.accel = s.last_accel
                   then (if MAX_FLY_TIMEOUT ≤ s.fly_timeout + 1 then 0 else s.fly_timeout + 1)
                   else 0,
    action := if cmd &&& (SampleGPS ||| Land ||| Abort) ≠ 0 then cmd
              else if s.accel = s.last_accel ∧ MAX_FLY_TIMEOUT ≤ s.fly_timeout + 1
                   then Abort
                   else s.action,
    last_accel := s.accel }

/--
One iteration of `flight_loop` after the UDP receive, given the received
`operator_cmd` value.  First the `last_action` static is synchronized with the
freshly read action (the `if (current_action != last_action)` block), then the
switch runs.  In the `Abort` case: battery < 15 sets `Charge` and breaks;
otherwise `action.type = last_action` is written and control falls through
into the `Land` case.  Unknown tags (the `default` case) force `Abort`.
-/
def flight_step (s0 : FlightState) (cmd : Nat) : FlightState :=
  let s : FlightState :=
    { s0 with last_action := if s0.action ≠ s0.last_action then s0.action else s0.last_action }
  if s.action = Fly then fly_case s cmd
  else if s.action = SampleGPS then
    (if cmd &&& (Fly ||| Abort) ≠ 0 then { s with action := cmd } else s)
  else if s.action = Idle then
    (if cmd &&& (Fly ||| Charge ||| Abort) ≠ 0 then { s with action := cmd } else s)
  else if s.action = Charge then
    (if cmd &&& (Idle ||| Abort) ≠ 0 then
       (if 15 ≤ s.battery then { s with action := cmd } else s)
     else s)
  else if s.action = Abort then
    (if s.battery < 15 then { s with action := Charge }
     else landLogic Abort { s with action := s.last_action } cmd)
  else if s.action = Land then landLogic Land s cmd
  else { s with action := Abort }

/-! ### UDP command decode (flight_ctrl.c receive path) -/

/-- `sizeof(current_action_t)` on the target: a 4-byte little-endian int. -/
def CMD_SIZE : Nat := 4

/-- Little-endian decode of a byte list into the enum integer. -/
def leDecode (bs : List Nat) : Nat :=
  bs.foldr (fun b acc => b + 256 * acc) 0

/-- Little-endian bytes of `Reserved`, the initializer of `operator_cmd`. -/
def RESERVED_BYTES : List Nat := [1, 0, 0, 0]

/--
The value held by `operator_cmd` after `recvfrom` returns for a datagram with
the given bytes: `recvfrom` overwrites the first `min(len, 4)` bytes of the
variable, which was initialized to `Reserved`; the remaining bytes keep the
initializer's value.  The `n == sizeof(operator_cmd)` comparison in the source
guards only the `printf`, not the later use of `operator_cmd`.
-/
def recvCmd (dgram : List Nat) : Nat :=
  leDecode (dgram.take CMD_SIZE ++ RESERVED_BYTES.drop (min dgram.length CMD_SIZE))

/-- One `flight_loop` iteration fed by a received UDP datagram. -/
def flight_loop (s : FlightState) (dgram : List Nat) : FlightState :=
  flight_step s (recvCmd dgram)

/-! ### Battery (battery.c) -/

/-- Result of one `battery_loop` tick; `terminate` models `kill(0, SIGTERM)`. -/
structure BatteryOut where
  charge : Nat
  action : Nat
  terminate : Bool
deriving DecidableEq

/--
One iteration of `battery_loop` given the charge and action read at the start
of the tick and the elapsed milliseconds since `last_time`.  In `Charge`:
every `CHARGE_INTERVAL_MS` the charge gains 1 while below 100.  Otherwise:
every `DISCHARGE_INTERVAL_MS`, a positive charge loses 1, and if the value
read (before the decrement) is below 15 while not already in `Abort`, the
action becomes `Abort`; a zero charge terminates the process group.
-/
def battery_loop (charge action elapsed_ms : Nat) : BatteryOut :=
  if action = Charge then
    if CHARGE_INTERVAL_MS ≤ elapsed_ms then
      ⟨if charge < 100 then charge + 1 else charge, action, false⟩
    else ⟨charge, action, false⟩
  else
    if DISCHARGE_INTERVAL_MS ≤ elapsed_ms then
      if 0 < charge then
        ⟨charge - 1, if charge < 15 ∧ action ≠ Abort then Abort else action, false⟩
      else ⟨charge, action, true⟩
    else ⟨charge, action, false⟩

/-- Iterated battery ticks, one elapsed-time value per qualifying tick. -/
def battery_run : List Nat → Nat × Nat → Nat × Nat
  | [], st => st
  | e :: es, (c, a) =>
    let o := battery_loop c a e
    battery_run es (o.charge, o.action)

/-- `n` consecutive discharge ticks (each with 2000 ms elapsed). -/
def battery_iter (n : Nat) (st : Nat × Nat) : Nat × Nat :=
  battery_run (List.replicate n DISCHARGE_INTERVAL_MS) st

/-! ### GPS ring buffer (proj_types.h gps struct, gps_ctrl.c, telemetry.c) -/

/-- The ring-buffer part of the shared `gps` struct: buffer and the two indices. -/
structure gps_ring where
  buf : List Char
  write : Nat
  read : Nat
deriving DecidableEq

/--
One producer character transfer (gps_ctrl.c, inside the mutex): store at
`write`, then advance `write` modulo `GPS_BUFFER_SIZE`.
-/
def prodStep (g : gps_ring) (c : Char) : gps_ring :=
  { g with buf := g.buf.set g.write c, write := (g.write + 1) % GPS_BUFFER_SIZE }

/--
One consumer character transfer (telemetry.c, inside the mutex): read at
`read`, then advance `read` modulo `GPS_BUFFER_SIZE`.
-/
def consStep (g : gps_ring) : Char × gps_ring :=
  (g.buf.getD g.read ' ', { g with read := (g.read + 1) % GPS_BUFFER_SIZE })

/-- Fold a character sequence into the ring through the producer step. -/
def pushAll (g : gps_ring) (cs : List Char) : gps_ring :=
  cs.foldl prodStep g

/-! ### Telemetry GPS drain (telemetry.c, SampleGPS section) -/

/-- The text appended on a GPS timeout. -/
def NO_FIX : List Char := "NO FIX.".toList

/--
`BUF_APPEND(msg, ptr, s)`: if `ptr < sizeof(msg)`, `snprintf` appends
`s ++ "\n"` truncated to the remaining room (one byte reserved for NUL).
-/
def bufAppend (msg : List Char) (s : List Char) : List Char :=
  if msg.length < MSG_SIZE then msg ++ (s ++ ['\n']).take (MSG_SIZE - 1 - msg.length) else msg

/--
Outcome of one wait round in the telemetry drain loop:
`sample` — `full` was signaled within `GPS_WAIT_TIMEOUT_S` seconds and the
mutex acquired, a character is consumed; `fullTimeout` — `sem_timedwait(full)`
returned `ETIMEDOUT`; `fullFail` — it failed otherwise; `mutexFail` — the
mutex wait failed (the `full` token is posted back).
-/
inductive GpsEvent where
  | sample
  | fullTimeout
  | fullFail
  | mutexFail
deriving DecidableEq

/--
The `while (ptr < sizeof(msg) - 2)` drain loop of `telemetry_loop` in the
`SampleGPS` state, driven by the wait-outcome oracle.  On `fullTimeout` it
appends `NO FIX.` to the message, sets the action to `Abort` under the write
lock, and breaks.  A consumed newline ends the drain.
-/
def drainGps (evs : List GpsEvent) (msg : List Char) (ring : gps_ring) (action : Nat) :
    List Char × gps_ring × Nat :=
  if msg.length < MSG_SIZE - 2 then
    match evs with
    | [] => (msg, ring, action)
    | GpsEvent.fullTimeout :: _ => (bufAppend msg NO_FIX, ring, Abort)
    | GpsEvent.fullFail :: _ => (msg, ring, action)
    | GpsEvent.mutexFail :: _ => (msg, ring, action)
    | GpsEvent.sample :: rest =>
      let p := consStep ring
      let msg1 := msg ++ [p.1]
      if p.1 = '\n' then (msg1, p.2, action) else drainGps rest msg1 p.2 action
  else (msg, ring, action)

/-! ### GPS producer (gps_ctrl.c) -/

/-- The static NMEA sample table. -/
def nmea_samples : List (List Char) :=
  ["$GPGGA,123519,4807.038,N,01131.000,E,1,08,0.9,545.4,M,46.9,M,,*47\n".toList,
   "$GPGSA,A,3,04,05,09,12,24,25,29,30,31,,,1.8,1.0,1.5*33\n".toList,
   "$GPRMC,123519,A,4807.038,N,01131.000,E,022.4,084.4,230394,003.1,W*6A\n".toList,
   "$GPVTG,084.4,T,003.1,M,022.4,N,041.4,K*1F\n".toList]

/--
Outcome of one `sem_timedwait(empty, 1s)` in the producer loop: `ok` — slot
acquired, a character is written; `timedOut` — `ETIMEDOUT`, the sample is
abandoned (`goto _wdg`); `err` — another failure, `perror` and retry.
-/
inductive EmptyWait where
  | ok
  | timedOut
  | err
deriving DecidableEq

/--
The `while (count < strlen(msg))` loop of `gps_loop`, driven by the
empty-semaphore oracle.  Returns the ring, the final `count`, whether the
sample completed, and the characters pushed (in FIFO order, as the consumer
will receive them).
-/
def gpsWriteLoop (evs : List EmptyWait) (msg : List Char) (count : Nat) (ring : gps_ring) :
    gps_ring × Nat × Bool × List Char :=
  if count < msg.length then
    match evs with
    | [] => (ring, count, false, [])
    | EmptyWait.timedOut :: _ => (ring, count, false, [])
    | EmptyWait.err :: rest => gpsWriteLoop rest msg count ring
    | EmptyWait.ok :: rest =>
      let c := msg.getD count ' '
      let r := gpsWriteLoop rest msg (count + 1) (prodStep ring c)
      (r.1, r.2.1, r.2.2.1, c :: r.2.2.2)
  else (ring, count, true, [])
termination_by evs.length

/--
One iteration of `gps_loop`: write the current sample character by character;
only a completed sample advances `sample_index` (modulo the table length) —
the timeout path jumps to `_wdg` and skips the advance, and the local `count`
restarts at 0 on the next call.  Returns the new sample index, the ring,
completion, and the pushed characters.
-/
def gps_loop (evs : List EmptyWait) (sample_index : Nat) (ring : gps_ring) :
    Nat × gps_ring × Bool × List Char :=
  let msg := nmea_samples.getD sample_index []
  let r := gpsWriteLoop evs msg 0 ring
  if r.2.2.1 then ((sample_index + 1) % nmea_samples.length, r.1, true, r.2.2.2)
  else (sample_index, r.1, false, r.2.2.2)

/-! ### Shared region and lock reinitialization (drone_sys.c) -/

/-- `rw_lock_t`: the two semaphore values and the reader counter. -/
structure rw_lock_t where
  read : Nat
  write : Nat
  read_counter : Nat
deriving DecidableEq

/-- `rwlock_init`: both semaphores to 1, counter to 0. -/
def rwlock_init : rw_lock_t := ⟨1, 1, 0⟩

/--
`drone_shared_t`: the shared region, with the synchronization-primitive fields
(RW lock of the action, the three mutexes, the bounded-buffer semaphores)
separated from the data fields (action tag, acceleration, motors, ring buffer
with its indices, battery charge).
-/
structure drone_shared_t where
  action_lock : rw_lock_t
  action_type : Nat
  accel_mutex : Nat
  acceleration : acceleration_t
  pwm_mutex : Nat
  motors : motors_t
  gps_mutex : Nat
  gps_full : Nat
  gps_empty : Nat
  gps : gps_ring
  battery : Nat
deriving DecidableEq

/--
`init_locks_shm`: reinitializes, in place, exactly the synchronization
primitives — the action RW lock, the accel and PWM mutexes, and the three
bounded-buffer semaphores (mutex 1, empty `GPS_BUFFER_SIZE`, full 0).
-/
def init_locks_shm (p : drone_shared_t) : drone_shared_t :=
  { p with
    action_lock := rwlock_init,
    accel_mutex := 1,
    pwm_mutex := 1,
    gps_mutex := 1,
    gps_empty := GPS_BUFFER_SIZE,
    gps_full := 0 }

/--
The effect of `sigusr1_handler` on the shared region: the handler sends
SIGTERM to the six children (which does not write the region) and then calls
`init_locks_shm` on it.
-/
def sigusr1_handler (p : drone_shared_t) : drone_shared_t :=
  init_locks_shm p

/-! ### Concrete states used by witnesses and counterexamples -/

def accel0 : acceleration_t := ⟨0, 0, 0⟩

def motors_half : motors_t := ⟨1/2, 1/2, 1/2, 1/2⟩

/-- Abort state with high battery and a distinct previously seen action. -/
def abortHighSt : FlightState :=
  { action := Abort, last_action := Fly, motors := motors_half,
    accel := accel0, last_accel := accel0, battery := 20, fly_timeout := 0 }

/-- Abort state with low battery. -/
def abortLowSt : FlightState :=
  { action := Abort, last_action := Fly, motors := motors_half,
    accel := accel0, last_accel := accel0, battery := 10, fly_timeout := 0 }

/-- Idle state with full battery (the cold-start state of the controller). -/
def idleSt : FlightState :=
  { action := Idle, last_action := Idle, motors := ⟨0, 0, 0, 0⟩,
    accel := accel0, last_accel := accel0, battery := 100, fly_timeout := 0 }

/-- Charge state with a half-charged battery. -/
def chargeHighSt : FlightState :=
  { action := Charge, last_action := Charge, motors := ⟨0, 0, 0, 0⟩,
    accel := accel0, last_accel := accel0, battery := 50, fly_timeout := 0 }

/-- Charge state with a low battery. -/
def chargeLowSt : FlightState :=
  { action := Charge, last_action := Charge, motors := ⟨0, 0, 0, 0⟩,
    accel := accel0, last_accel := accel0, battery := 10, fly_timeout := 0 }

/-- Fly state with in-range motors. -/
def flySt : FlightState :=
  { action := Fly, last_action := Fly, motors := motors_half,
    accel := accel0, last_accel := ⟨1, 1, 1⟩, battery := 80, fly_timeout := 0 }

/-- An empty ring. -/
def ring0 : gps_ring := ⟨List.replicate GPS_BUFFER_SIZE ' ', 0, 0⟩

/-- A ring whose indices sit at the wrap boundary. -/
def ringWrap : gps_ring := ⟨List.replicate GPS_BUFFER_SIZE ' ', GPS_BUFFER_SIZE - 1, GPS_BUFFER_SIZE - 1⟩

/-! ### Helper lemmas -/

/-- The `last_action` synchronization at the top of the tick always lands on the freshly read action. -/
theorem la_val (s : FlightState) :
    (if s.action ≠ s.last_action then s.action else s.last_action) = s.action := by
  split_ifs with h
  · rfl
  · exact (not_not.mp h).symm

theorem clampLo_nonneg (x : ℚ) : 0 ≤ clampLo x := by
  unfold clampLo
  split_ifs with h
  · norm_num
  · linarith [not_lt.mp h]

theorem clampUp_le_one (x : ℚ) : clampUp x ≤ 1 := by
  unfold clampUp
  split_ifs with h
  · norm_num
  · linarith [not_lt.mp h]

theorem clampLo_le_one (x : ℚ) (h : x ≤ 1) : clampLo x ≤ 1 := by
  unfold clampLo
  split_ifs <;> norm_num <;> linarith

theorem clampUp_nonneg (x : ℚ) (h : 0 ≤ x) : 0 ≤ clampUp x := by
  unfold clampUp
  split_ifs <;> norm_num <;> linarith

theorem map_range (f : ℚ → ℚ) (hf : ∀ x : ℚ, 0 ≤ x → x ≤ 1 → 0 ≤ f x ∧ f x ≤ 1)
    (m : motors_t) (hm : InRange01 m) : InRange01 (m.map f) := by
  obtain ⟨⟨h0a, h0b⟩, ⟨h1a, h1b⟩, ⟨h2a, h2b⟩, ⟨h3a, h3b⟩⟩ := hm
  exact ⟨hf m.m0 h0a h0b, hf m.m1 h1a h1b, hf m.m2 h2a h2b, hf m.m3 h3a h3b⟩

theorem flyMotors_range (m : motors_t) (d : ℚ) (hm : InRange01 m) :
    InRange01 (flyMotors m d) := by
  have hstab : ∀ x : ℚ, 0 ≤ x → x ≤ 1 → 0 ≤ clampLo (clampUp (x - d)) ∧ clampLo (clampUp (x - d)) ≤ 1 :=
    fun x _ _ => ⟨clampLo_nonneg _, clampLo_le_one _ (clampUp_le_one _)⟩
  have hinc : ∀ x : ℚ, 0 ≤ x → x ≤ 1 → 0 ≤ clampUp (x + DELTA_INCREASE) ∧ clampUp (x + DELTA_INCREASE) ≤ 1 := by
    intro x hx _
    refine ⟨clampUp_nonneg _ ?_, clampUp_le_one _⟩
    unfold DELTA_INCREASE
    linarith
  simp only [flyMotors]
  split_ifs
  · exact map_range _ hstab _ (map_range _ hinc _ hm)
  · exact map_range _ hstab _ hm
  · exact map_range _ hinc _ hm
  · exact hm

theorem landMotors_range (m : motors_t) (hm : InRange01 m) :
    InRange01 (landMotors m) := by
  have hdec : ∀ x : ℚ, 0 ≤ x → x ≤ 1 → 0 ≤ clampLo (x - DELTA_DECREASE) ∧ clampLo (x - DELTA_DECREASE) ≤ 1 := by
    intro x _ hx
    refine ⟨clampLo_nonneg _, clampLo_le_one _ ?_⟩
    unfold DELTA_DECREASE
    linarith
  exact map_range _ hdec _ hm

/-! Branch evaluation lemmas for `flight_step`, one per case of the switch. -/

theorem flight_step_fly (s : FlightState) (cmd : Nat) (ha : s.action = Fly) :
    flight_step s cmd = fly_case { s with last_action := Fly } cmd := by
  simp only [flight_step, la_val]
  rw [ha]
  norm_num

theorem flight_step_samplegps (s : FlightState) (cmd : Nat) (ha : s.action = SampleGPS) :
    flight_step s cmd =
      (if cmd &&& (Fly ||| Abort) ≠ 0 then { s with last_action := SampleGPS, action := cmd }
       else { s with last_action := SampleGPS }) := by
  simp only [flight_step, la_val]
  rw [ha]
  norm_num [Fly, SampleGPS]

theorem flight_step_idle (s : FlightState) (cmd : Nat) (ha : s.action = Idle) :
    flight_step s cmd =
      (if cmd &&& (Fly ||| Charge ||| Abort) ≠ 0 then { s with last_action := Idle, action := cmd }
       else { s with last_action := Idle }) := by
  simp only [flight_step, la_val]
  rw [ha]
  norm_num [Fly, SampleGPS, Idle]

theorem flight_step_charge (s : FlightState) (cmd : Nat) (ha : s.action = Charge) :
    flight_step s cmd =
      (if cmd &&& (Idle ||| Abort) ≠ 0 then
         (if 15 ≤ s.battery then { s with last_action := Charge, action := cmd }
          else { s with last_action := Charge })
       else { s with last_action := Charge }) := by
  simp only [flight_step, la_val]
  rw [ha]
  norm_num [Fly, SampleGPS, Idle, Charge]

theorem flight_step_abort (s : FlightState) (cmd : Nat) (ha : s.action = Abort) :
    flight_step s cmd =
      (if s.battery < 15 then { s with last_action := Abort, action := Charge }
       else landLogic Abort { s with last_action := Abort, action := Abort } cmd) := by
  simp only [flight_step, la_val]
  rw [ha]
  norm_num [Fly, SampleGPS, Idle, Charge, Abort]

theorem flight_step_land (s : FlightState) (cmd : Nat) (ha : s.action = Land) :
    flight_step s cmd = landLogic Land { s with last_action := Land } cmd := by
  simp only [flight_step, la_val]
  rw [ha]
  norm_num [Fly, SampleGPS, Idle, Charge, Abort, Land]

theorem flight_step_default (s : FlightState) (cmd : Nat)
    (h1 : s.action ≠ Fly) (h2 : s.action ≠ SampleGPS) (h3 : s.action ≠ Idle)
    (h4 : s.action ≠ Charge) (h5 : s.action ≠ Abort) (h6 : s.action ≠ Land) :
    flight_step s cmd = { s with last_action := s.action, action := Abort } := by
  simp only [flight_step, la_val]
  rw [if_neg h1, if_neg h2, if_neg h3, if_neg h4, if_neg h5, if_neg h6]

/-- Every branch of `flight_step` leaves the motors alone or applies one of the two motor updates. -/
theorem flight_step_motors (s : FlightState) (cmd : Nat) :
    (flight_step s cmd).motors = s.motors
    ∨ (flight_step s cmd).motors = flyMotors s.motors (s.accel.x + s.accel.y)
    ∨ (flight_step s cmd).motors = landMotors s.motors := by
  by_cases h1 : s.action = Fly
  · rw [flight_step_fly s cmd h1]
    exact Or.inr (Or.inl rfl)
  by_cases h2 : s.action = SampleGPS
  · rw [flight_step_samplegps s cmd h2]
    split_ifs <;> exact Or.inl rfl
  by_cases h3 : s.action = Idle
  · rw [flight_step_idle s cmd h3]
    split_ifs <;> exact Or.inl rfl
  by_cases h4 : s.action = Charge
  · rw [flight_step_charge s cmd h4]
    split_ifs <;> exact Or.inl rfl
  by_cases h5 : s.action = Abort
  · rw [flight_step_abort s cmd h5]
    simp only [landLogic]
    split_ifs <;> simp
  by_cases h6 : s.action = Land
  · rw [flight_step_land s cmd h6]
    simp only [landLogic]
    split_ifs <;> simp
  rw [flight_step_default s cmd h1 h2 h3 h4 h5 h6]
  exact Or.inl rfl

theorem battery_loop_charge_le (c a e : Nat) (h : c ≤ 100) :
    (battery_loop c a e).charge ≤ 100 := by
  unfold battery_loop
  split_ifs <;> simp <;> omega

theorem battery_run_charge_le (es : List Nat) :
    ∀ c a, c ≤ 100 → (battery_run es (c, a)).1 ≤ 100 := by
  induction es with
  | nil => intro c a h; exact h
  | cons e es ih =>
    intro c a h
    exact ih _ _ (battery_loop_charge_le c a e h)

/-! ### Claim theorems -/

set_option maxRecDepth 8192 in
/--
Claim C2: on a discharge tick (not in `Charge`, not already `Abort`): reading
charge exactly 15 does not trigger `Abort` (the stored value drops to 14);
reading 14 sets the action to `Abort` in that same tick.  Consequently, from
`charge = 100, action = Fly`, tick 86 first stores a value below 15 (14, still
`Fly`) and tick 87 — one battery tick later — makes the action `Abort`.
-/
theorem battery_abort_threshold :
    (∀ a e, a ≠ Charge → a ≠ Abort → DISCHARGE_INTERVAL_MS ≤ e →
      (battery_loop 15 a e).action = a ∧ (battery_loop 15 a e).charge = 14)
    ∧ (∀ a e, a ≠ Charge → a ≠ Abort → DISCHARGE_INTERVAL_MS ≤ e →
      (battery_loop 14 a e).action = Abort ∧ (battery_loop 14 a e).charge = 13)
    ∧ battery_iter 86 (100, Fly) = (14, Fly)
    ∧ battery_iter 87 (100, Fly) = (13, Abort) := by
  refine ⟨?_, ?_, by decide, by decide⟩
  · intro a e ha _ he
    simp [battery_loop, ha, he]
  · intro a e ha hab he
    simp [battery_loop, ha, hab, he]

/-- Witness for C2 at `action = Fly`, `elapsed = 2000 ms`. -/
theorem battery_abort_threshold_witness :
    (Fly ≠ Charge ∧ Fly ≠ Abort ∧ DISCHARGE_INTERVAL_MS ≤ 2000)
    ∧ ((battery_loop 15 Fly 2000).action = Fly ∧ (battery_loop 15 Fly 2000).charge = 14)
    ∧ ((battery_loop 14 Fly 2000).action = Abort ∧ (battery_loop 14 Fly 2000).charge = 13) :=
  ⟨⟨by decide, by decide, by decide⟩,
   battery_abort_threshold.1 Fly 2000 (by decide) (by decide) (by decide),
   battery_abort_threshold.2.1 Fly 2000 (by decide) (by decide) (by decide)⟩

/--
Claim C7: in `Charge`, a tick with 500 ms elapsed raises the charge by exactly
1 while below 100 and leaves 100 unchanged, and no tick sequence ever pushes
the charge above 100; in any other action, a tick with 2000 ms elapsed lowers
a positive charge by exactly 1 without terminating, and at charge 0 it
terminates the process group.
-/
theorem battery_charge_dynamics :
    (∀ c e, CHARGE_INTERVAL_MS ≤ e → c < 100 →
      battery_loop c Charge e = ⟨c + 1, Charge, false⟩)
    ∧ (∀ e, CHARGE_INTERVAL_MS ≤ e → battery_loop 100 Charge e = ⟨100, Charge, false⟩)
    ∧ (∀ es c a, c ≤ 100 → (battery_run es (c, a)).1 ≤ 100)
    ∧ (∀ c a e, a ≠ Charge → DISCHARGE_INTERVAL_MS ≤ e → 0 < c →
        (battery_loop c a e).charge = c - 1 ∧ (battery_loop c a e).terminate = false)
    ∧ (∀ a e, a ≠ Charge → DISCHARGE_INTERVAL_MS ≤ e →
        (battery_loop 0 a e).terminate = true) := by
  refine ⟨?_, ?_, ?_, ?_, ?_⟩
  · intro c e he hc
    simp [battery_loop, he, hc]
  · intro e he
    simp [battery_loop, he]
  · intro es c a h
    exact battery_run_charge_le es c a h
  · intro c a e ha he hc
    simp [battery_loop, ha, he, hc]
  · intro a e ha he
    simp [battery_loop, ha, he]

/-- Witness for C7 at charge 50 / 500 ms (charging) and charge 50 / action Fly / 2000 ms (discharging). -/
theorem battery_charge_dynamics_witness :
    (CHARGE_INTERVAL_MS ≤ 500 ∧ 50 < 100 ∧ Fly ≠ Charge ∧ DISCHARGE_INTERVAL_MS ≤ 2000 ∧ 0 < 50)
    ∧ battery_loop 50 Charge 500 = ⟨51, Charge, false⟩
    ∧ ((battery_loop 50 Fly 2000).charge = 49 ∧ (battery_loop 50 Fly 2000).terminate = false)
    ∧ (battery_loop 0 Fly 2000).terminate = true :=
  ⟨⟨by decide, by decide, by decide, by decide, by decide⟩,
   battery_charge_dynamics.1 50 500 (by decide) (by decide),
   battery_charge_dynamics.2.2.2.1 50 Fly 2000 (by decide) (by decide) (by decide),
   battery_charge_dynamics.2.2.2.2 Fly 2000 (by decide) (by decide)⟩

/--
Claim C8: a producer character transfer advances only `write`, a consumer
transfer advances only `read`, each by exactly 1 modulo `GPS_BUFFER_SIZE`;
both indices stay below `GPS_BUFFER_SIZE`, and index `GPS_BUFFER_SIZE - 1`
wraps to 0.
-/
theorem ring_index_step :
    (∀ g c, (prodStep g c).write = (g.write + 1) % GPS_BUFFER_SIZE
      ∧ (prodStep g c).read = g.read
      ∧ (prodStep g c).write < GPS_BUFFER_SIZE
      ∧ (g.write = GPS_BUFFER_SIZE - 1 → (prodStep g c).write = 0))
    ∧ (∀ g, (consStep g).2.read = (g.read + 1) % GPS_BUFFER_SIZE
      ∧ (consStep g).2.write = g.write
      ∧ (consStep g).2.buf = g.buf
      ∧ (consStep g).2.read < GPS_BUFFER_SIZE
      ∧ (g.read = GPS_BUFFER_SIZE - 1 → (consStep g).2.read = 0)) := by
  constructor
  · intro g c
    refine ⟨rfl, rfl, Nat.mod_lt _ (by norm_num [GPS_BUFFER_SIZE]), ?_⟩
    intro h
    simp only [prodStep, h]
    decide
  · intro g
    refine ⟨rfl, rfl, rfl, Nat.mod_lt _ (by norm_num [GPS_BUFFER_SIZE]), ?_⟩
    intro h
    simp only [consStep, h]
    decide

/-- Witness for C8 at the wrap boundary `write = read = GPS_BUFFER_SIZE - 1`. -/
theorem ring_index_step_witness :
    (ringWrap.write = GPS_BUFFER_SIZE - 1 ∧ ringWrap.read = GPS_BUFFER_SIZE - 1)
    ∧ (prodStep ringWrap 'a').write = 0
    ∧ (consStep ringWrap).2.read = 0 :=
  ⟨⟨by decide, by decide⟩,
   (ring_index_step.1 ringWrap 'a').2.2.2 (by decide),
   (ring_index_step.2 ringWrap).2.2.2.2 (by decide)⟩

/--
Claim C9: reinitializing the synchronization primitives on the recovery
signal (`sigusr1_handler` → `init_locks_shm`) rewrites only the lock and
semaphore fields; the battery charge, action tag, motor PWM, acceleration and
the GPS ring (buffer contents and both indices) are unchanged.
-/
theorem init_locks_frame (p : drone_shared_t) :
    (sigusr1_handler p).battery = p.battery
    ∧ (sigusr1_handler p).action_type = p.action_type
    ∧ (sigusr1_handler p).motors = p.motors
    ∧ (sigusr1_handler p).acceleration = p.acceleration
    ∧ (sigusr1_handler p).gps = p.gps
    ∧ (sigusr1_handler p).action_lock = rwlock_init
    ∧ (sigusr1_handler p).accel_mutex = 1
    ∧ (sigusr1_handler p).pwm_mutex = 1
    ∧ (sigusr1_handler p).gps_mutex = 1
    ∧ (sigusr1_handler p).gps_empty = GPS_BUFFER_SIZE
    ∧ (sigusr1_handler p).gps_full = 0 :=
  ⟨rfl, rfl, rfl, rfl, rfl, rfl, rfl, rfl, rfl, rfl, rfl⟩

/--
Claim C1 counterexample: a tick observing `Abort` with battery ≥ 15 does NOT
ignore operator commands, and does not revert to the previously seen action.
At `abortHighSt` (action `Abort`, previously seen action `Fly`, battery 20):
the command `Fly` is applied by the fall-through `Land` logic and the motors
are not decreased; and with no applicable command (`Reserved`), the action
stays `Abort` — the `last_action` written by the `Abort` branch was already
resynchronized to `Abort` earlier in the same tick, so no revert to `Fly`
happens.
-/
theorem abort_fallthrough_cex :
    abortHighSt.action = Abort
    ∧ 15 ≤ abortHighSt.battery
    ∧ abortHighSt.last_action = Fly
    ∧ (flight_step abortHighSt Fly).action = Fly
    ∧ (flight_step abortHighSt Fly).motors = abortHighSt.motors
    ∧ (flight_step abortHighSt Reserved).action = Abort := by
  refine ⟨rfl, by decide, rfl, ?_, ?_, ?_⟩
  · norm_num [flight_step, fly_case, landLogic, abortHighSt,
      Abort, Fly, Charge, Idle, Land, SampleGPS, Reserved]
    decide
  · norm_num [flight_step, fly_case, landLogic, abortHighSt,
      Abort, Fly, Charge, Idle, Land, SampleGPS, Reserved]
    rw [if_neg (by decide : ¬(4 &&& (4 ||| 64) = 0))]
  · norm_num [flight_step, fly_case, landLogic, landMotors, motors_t.map, motors_t.sum,
      clampUp, clampLo, abortHighSt, motors_half, DELTA_DECREASE,
      Abort, Fly, Charge, Idle, Land, SampleGPS, Reserved]

/--
Claim C1 as amended: in a tick observing `Abort`, with battery < 15 the action
becomes `Charge` and the tick ends (motors untouched); with battery ≥ 15 the
branch writes `last_action` — already resynchronized to `Abort` this very
tick, so the action does not revert — and falls through into the `Land`
logic, which first accepts an operator command in `{Fly, Abort}` (ending the
tick with motors untouched) and otherwise decreases every motor by
`DELTA_DECREASE` clamped at 0, switching to `Charge` once the average reaches
exactly 0 and staying `Abort` otherwise.
-/
theorem abort_fallthrough (s : FlightState) (cmd : Nat) (ha : s.action = Abort) :
    (s.battery < 15 →
      (flight_step s cmd).action = Charge ∧ (flight_step s cmd).motors = s.motors)
    ∧ (15 ≤ s.battery → cmd &&& (Fly ||| Abort) ≠ 0 →
      (flight_step s cmd).action = cmd ∧ (flight_step s cmd).motors = s.motors)
    ∧ (15 ≤ s.battery → cmd &&& (Fly ||| Abort) = 0 →
      (flight_step s cmd).motors = landMotors s.motors
      ∧ (flight_step s cmd).action =
          (if (landMotors s.motors).sum / 4 = 0 then Charge else Abort)) := by
  rw [flight_step_abort s cmd ha]
  refine ⟨fun hb => ?_, fun hb hcmd => ?_, fun hb hcmd => ?_⟩
  · rw [if_pos hb]
    exact ⟨rfl, rfl⟩
  · rw [if_neg (not_lt.mpr hb)]
    simp [landLogic, hcmd]
  · rw [if_neg (not_lt.mpr hb)]
    simp [landLogic, hcmd]

/-- Witness for the amended C1 at `abortLowSt` (battery 10) and `abortHighSt` (battery 20). -/
theorem abort_fallthrough_witness :
    (abortLowSt.action = Abort ∧ abortLowSt.battery < 15
      ∧ (flight_step abortLowSt Reserved).action = Charge)
    ∧ (abortHighSt.action = Abort ∧ 15 ≤ abortHighSt.battery
      ∧ Reserved &&& (Fly ||| Abort) = 0
      ∧ (flight_step abortHighSt Reserved).motors = landMotors abortHighSt.motors) :=
  ⟨⟨rfl, by decide, ((abort_fallthrough abortLowSt Reserved rfl).1 (by decide)).1⟩,
   ⟨rfl, by decide, by decide,
    ((abort_fallthrough abortHighSt Reserved rfl).2.2 (by decide) (by decide)).1⟩⟩

/--
Claim C3: for every flight-controller iteration and every action and command
value, if each motor PWM component is in [0, 1] before the iteration, it is
in [0, 1] after it (Fly: saturated increment and clamped stabilization;
Land/Abort fall-through: decrement clamped at 0; all other branches leave the
motors unchanged).
-/
theorem flight_motors_in_range (s : FlightState) (cmd : Nat) (hm : InRange01 s.motors) :
    InRange01 ((flight_step s cmd).motors) := by
  rcases flight_step_motors s cmd with h | h | h
  · rw [h]; exact hm
  · rw [h]; exact flyMotors_range _ _ hm
  · rw [h]; exact landMotors_range _ hm

/-- Witness for C3 at the Fly state `flySt` with all motors at 1/2. -/
theorem flight_motors_in_range_witness :
    InRange01 flySt.motors ∧ InRange01 ((flight_step flySt Reserved).motors) :=
  ⟨by norm_num [InRange01, flySt, motors_half],
   flight_motors_in_range flySt Reserved (by norm_num [InRange01, flySt, motors_half])⟩

/--
Claim C4: in a `Charge`-state iteration that receives an operator command in
`{Idle, Abort}`, the command is applied exactly when the battery read at that
moment is at least 15; below 15 the command is ignored and the action (and
the motors) are left unchanged.
-/
theorem charge_cmd_gating (s : FlightState) (cmd : Nat)
    (ha : s.action = Charge) (hc : cmd = Idle ∨ cmd = Abort) :
    ((flight_step s cmd).action = cmd ↔ 15 ≤ s.battery)
    ∧ (15 ≤ s.battery → (flight_step s cmd).action = cmd)
    ∧ (s.battery < 15 →
        (flight_step s cmd).action = Charge ∧ (flight_step s cmd).motors = s.motors) := by
  have hcore : (flight_step s cmd).action = (if 15 ≤ s.battery then cmd else Charge) := by
    rw [flight_step_charge s cmd ha]
    rcases hc with rfl | rfl
    · rw [if_pos (by decide : Idle &&& (Idle ||| Abort) ≠ 0)]
      by_cases hb : 15 ≤ s.battery
      · rw [if_pos hb, if_pos hb]
      · rw [if_neg hb, if_neg hb]
        exact ha
    · rw [if_pos (by decide : Abort &&& (Idle ||| Abort) ≠ 0)]
      by_cases hb : 15 ≤ s.battery
      · rw [if_pos hb, if_pos hb]
      · rw [if_neg hb, if_neg hb]
        exact ha
  have hmot : (flight_step s cmd).motors = s.motors := by
    rw [flight_step_charge s cmd ha]
    split_ifs <;> rfl
  refine ⟨⟨fun h => ?_, fun hb => hcore.trans (if_pos hb)⟩,
          fun hb => hcore.trans (if_pos hb),
          fun hb => ⟨hcore.trans (if_neg (not_le.mpr hb)), hmot⟩⟩
  by_contra hb
  rw [hcore, if_neg hb] at h
  rcases hc with rfl | rfl
  · exact absurd h (by decide)
  · exact absurd h (by decide)

/-- Witness for C4: command `Idle` applied at battery 50, ignored at battery 10. -/
theorem charge_cmd_gating_witness :
    (chargeHighSt.action = Charge ∧ 15 ≤ chargeHighSt.battery
      ∧ (flight_step chargeHighSt Idle).action = Idle)
    ∧ (chargeLowSt.action = Charge ∧ chargeLowSt.battery < 15
      ∧ (flight_step chargeLowSt Idle).action = Charge
      ∧ (flight_step chargeLowSt Idle).motors = chargeLowSt.motors) :=
  ⟨⟨rfl, by decide,
    (charge_cmd_gating chargeHighSt Idle rfl (Or.inl rfl)).2.1 (by decide)⟩,
   ⟨rfl, by decide,
    ((charge_cmd_gating chargeLowSt Idle rfl (Or.inl rfl)).2.2 (by decide)).1,
    ((charge_cmd_gating chargeLowSt Idle rfl (Or.inl rfl)).2.2 (by decide)).2⟩⟩

/--
Claim C5 (code bug): a UDP datagram whose size differs from
`sizeof(current_action_t)` is NOT ignored.  The size comparison in the source
guards only the `printf`; `operator_cmd` keeps the partially overwritten
bytes and is acted upon.  A 1-byte datagram `[0x04]` received while `Idle`
decodes to `Fly` (its remaining bytes come from the `Reserved` initializer)
and changes the action to `Fly`.  (An empty datagram happens to be harmless
only because the untouched initializer `Reserved` matches no command mask.)
-/
theorem udp_short_datagram_bug :
    [(4 : Nat)].length ≠ CMD_SIZE
    ∧ recvCmd [4] = Fly
    ∧ idleSt.action = Idle
    ∧ (flight_loop idleSt [4]).action = Fly
    ∧ (flight_loop idleSt []).action = Idle := by
  refine ⟨by decide, by decide, rfl, ?_, ?_⟩
  · norm_num [flight_loop, flight_step, fly_case, landLogic, recvCmd, leDecode,
      RESERVED_BYTES, CMD_SIZE, idleSt, Abort, Fly, Charge, Idle, Land, SampleGPS, Reserved]
    decide
  · norm_num [flight_loop, flight_step, fly_case, landLogic, recvCmd, leDecode,
      RESERVED_BYTES, CMD_SIZE, idleSt, Abort, Fly, Charge, Idle, Land, SampleGPS, Reserved]

/--
Claim C6: whenever the telemetry drain loop is at a wait (message not yet at
the loop bound) and the `full` semaphore times out (`GPS_WAIT_TIMEOUT_S` = 5
seconds), the loop appends `NO FIX.` to the message (with `BUF_APPEND`'s
newline, in full whenever the remaining room allows) and transitions the
action to `Abort`, leaving the ring untouched.  Any timeout later in a drain
is an instance of this statement at the message accumulated so far.
-/
theorem telemetry_no_fix_abort (evs : List GpsEvent) (msg : List Char)
    (ring : gps_ring) (action : Nat) (h : msg.length < MSG_SIZE - 2) :
    drainGps (GpsEvent.fullTimeout :: evs) msg ring action = (bufAppend msg NO_FIX, ring, Abort)
    ∧ (msg.length ≤ MSG_SIZE - 9 → bufAppend msg NO_FIX = msg ++ (NO_FIX ++ ['\n']))
    ∧ GPS_WAIT_TIMEOUT_S = 5 := by
  refine ⟨?_, ?_, rfl⟩
  · rw [drainGps]
    rw [if_pos h]
  · intro hlen
    have hfit : (NO_FIX ++ ['\n']).length ≤ MSG_SIZE - 1 - msg.length := by
      have h8 : (NO_FIX ++ ['\n']).length = 8 := by decide
      rw [h8]
      simp only [MSG_SIZE] at hlen ⊢
      omega
    have hlt : msg.length < MSG_SIZE := by
      simp only [MSG_SIZE] at h ⊢
      omega
    simp only [bufAppend]
    rw [if_pos hlt, List.take_of_length_le hfit]

/-- Witness for C6: a timeout at the start of a drain over an empty message. -/
theorem telemetry_no_fix_abort_witness :
    (([] : List Char).length < MSG_SIZE - 2)
    ∧ drainGps [GpsEvent.fullTimeout] [] ring0 SampleGPS = (bufAppend [] NO_FIX, ring0, Abort)
    ∧ bufAppend [] NO_FIX = [] ++ (NO_FIX ++ ['\n']) :=
  ⟨by decide,
   (telemetry_no_fix_abort [] [] ring0 SampleGPS (by decide)).1,
   (telemetry_no_fix_abort [] [] ring0 SampleGPS (by decide)).2.1 (by decide)⟩

/-- A producer inner loop that times out after `k` successful writes pushes exactly the next `k` characters and reports the sample incomplete. -/
theorem gpsWriteLoop_timeout (k : Nat) :
    ∀ (msg : List Char) (count : Nat) (ring : gps_ring), count + k < msg.length →
    gpsWriteLoop (List.replicate k EmptyWait.ok ++ [EmptyWait.timedOut]) msg count ring
      = (pushAll ring ((msg.drop count).take k), count + k, false, (msg.drop count).take k) := by
  induction k with
  | zero =>
    intro msg count ring h
    rw [List.replicate_zero, List.nil_append, gpsWriteLoop]
    rw [if_pos (by omega : count < msg.length)]
    simp [pushAll]
  | succ k ih =>
    intro msg count ring h
    have hcount : count < msg.length := by omega
    rw [List.replicate_succ, List.cons_append, gpsWriteLoop]
    rw [if_pos hcount]
    have hrec := ih msg (count + 1) (prodStep ring (msg.getD count ' ')) (by omega)
    simp only [hrec]
    have hdrop : msg.drop count = msg.getD count ' ' :: msg.drop (count + 1) := by
      rw [List.getD_eq_getElem _ _ hcount]
      exact List.drop_eq_getElem_cons hcount
    rw [hdrop]
    simp only [List.take_succ_cons, pushAll, List.foldl_cons]
    have harith : count + 1 + k = count + (k + 1) := by omega
    rw [harith]

/-- A producer inner loop given one `ok` per remaining character completes the sample, pushing the remaining characters. -/
theorem gpsWriteLoop_complete (n : Nat) :
    ∀ (msg : List Char) (count : Nat) (ring : gps_ring), msg.length = count + n →
    gpsWriteLoop (List.replicate n EmptyWait.ok) msg count ring
      = (pushAll ring (msg.drop count), count + n, true, msg.drop count) := by
  induction n with
  | zero =>
    intro msg count ring h
    have hc : count = msg.length := by omega
    subst hc
    rw [List.replicate_zero, gpsWriteLoop]
    rw [if_neg (by omega : ¬msg.length < msg.length)]
    rw [List.drop_length]
    simp [pushAll]
  | succ n ih =>
    intro msg count ring h
    have hcount : count < msg.length := by omega
    rw [List.replicate_succ, gpsWriteLoop]
    rw [if_pos hcount]
    have hrec := ih msg (count + 1) (prodStep ring (msg.getD count ' ')) (by omega)
    simp only [hrec]
    have hdrop : msg.drop count = msg.getD count ' ' :: msg.drop (count + 1) := by
      rw [List.getD_eq_getElem _ _ hcount]
      exact List.drop_eq_getElem_cons hcount
    rw [hdrop]
    simp only [pushAll, List.foldl_cons]
    have harith : count + 1 + n = count + (n + 1) := by omega
    rw [harith]

/--
Claim C10: a `gps_loop` iteration whose `empty`-semaphore wait times out
after `k` of the sample's characters leaves those `k` characters in the ring
(the FIFO stream the consumer receives is `msg.take k`) and does not advance
the sample index; the next iteration (given enough `ok` waits) restarts the
same sample from its first character and completes it, so the consumer-visible
stream across the two iterations is `msg.take k ++ msg` — a partial prefix
immediately followed by the same sample restarted from its beginning.
-/
theorem gps_timeout_restart (idx k : Nat) (ring : gps_ring)
    (hk : k < (nmea_samples.getD idx []).length) :
    gps_loop (List.replicate k EmptyWait.ok ++ [EmptyWait.timedOut]) idx ring
      = (idx, pushAll ring ((nmea_samples.getD idx []).take k), false,
         (nmea_samples.getD idx []).take k)
    ∧ gps_loop (List.replicate (nmea_samples.getD idx []).length EmptyWait.ok) idx
        (pushAll ring ((nmea_samples.getD idx []).take k))
      = ((idx + 1) % nmea_samples.length,
         pushAll (pushAll ring ((nmea_samples.getD idx []).take k)) (nmea_samples.getD idx []),
         true, nmea_samples.getD idx [])
    ∧ (gps_loop (List.replicate k EmptyWait.ok ++ [EmptyWait.timedOut]) idx ring).2.2.2
        ++ (gps_loop (List.replicate (nmea_samples.getD idx []).length EmptyWait.ok) idx
             (pushAll ring ((nmea_samples.getD idx []).take k))).2.2.2
      = (nmea_samples.getD idx []).take k ++ nmea_samples.getD idx [] := by
  have h1 := gpsWriteLoop_timeout k (nmea_samples.getD idx []) 0 ring (by omega)
  have h2 := gpsWriteLoop_complete (nmea_samples.getD idx []).length (nmea_samples.getD idx [])
    0 (pushAll ring ((nmea_samples.getD idx []).take k)) (by omega)
  rw [List.drop_zero] at h1 h2
  refine ⟨?_, ?_, ?_⟩
  · simp only [gps_loop]
    rw [h1]
    rfl
  · simp only [gps_loop]
    rw [h2]
    rfl
  · simp only [gps_loop]
    rw [h1, h2]
    rfl

/-- Witness for C10: the first sample, interrupted after 3 characters. -/
theorem gps_timeout_restart_witness :
    (3 < (nmea_samples.getD 0 []).length)
    ∧ gps_loop (List.replicate 3 EmptyWait.ok ++ [EmptyWait.timedOut]) 0 ring0
      = (0, pushAll ring0 ((nmea_samples.getD 0 []).take 3), false,
         (nmea_samples.getD 0 []).take 3) :=
  ⟨by decide, (gps_timeout_restart 0 3 ring0 (by decide)).1⟩

end Drone
